import Mathlib

/-!
Shallow embedding of the task normalization / status-classification pipeline
of the `task-viz` repository (Streamlit app with a Google Tasks page,
`pages/task.py`, and a Todoist page, `pages/todoist_viz.py`).

Python raw records (JSON dicts / SDK objects) are modelled as Lean structures
with `Option` fields for keys/attributes that may be absent.  Timestamp
strings of the shape `YYYY-MM-DDTHH:MM:SS...` are modelled as a `Timestamp`
structure holding the calendar-date part and the remaining time part, so that
`s.split("T")[0]` followed by `datetime.strptime(_, "%Y-%m-%d").date()` is the
projection `Timestamp.date`.  A rendered `Timestamp` string is never empty,
so a present timestamp field is always truthy in the Python sense.

Exceptions raised by the vendor SDK clients are modelled with
`Except String`: `.error e` is the client raising an exception whose message
is `e`.  Streamlit output calls (`st.error`, `st.warning`) are modelled as an
ordered list of `Effect` values produced by the page flow.
-/

/-- A calendar date (the `datetime.date` value obtained from a
`YYYY-MM-DD` string). -/
structure Date where
  year : Nat
  month : Nat
  day : Nat
deriving DecidableEq, Repr

/-- Strict calendar order on dates: `datetime.date.__lt__`
(lexicographic on year, month, day). -/
def Date.before (a b : Date) : Bool :=
  if a.year < b.year then true
  else if b.year < a.year then false
  else if a.month < b.month then true
  else if b.month < a.month then false
  else decide (a.day < b.day)

/-- Non-strict calendar order (used for ascending sorts). -/
def Date.le (a b : Date) : Bool := !(Date.before b a)

/-- A timestamp string `YYYY-MM-DDTHH:MM:SS...`: `date` is what
`s.split("T")[0]` parses to, `timePart` is the rest.  As a Python string it
is nonempty, hence truthy. -/
structure Timestamp where
  date : Date
  timePart : String
deriving DecidableEq, Repr

/-- One Streamlit user-visible message emitted while a page runs. -/
inductive Effect where
  | errorMsg (s : String)
  | warningMsg (s : String)
deriving DecidableEq, Repr

/-- Python `dict` built from an association list (later bindings overwrite
earlier ones) followed by `.get(k, dflt)`. -/
def pyDictGet (ps : List (String × String)) (k dflt : String) : String :=
  match ps with
  | [] => dflt
  | (k2, v) :: rest => pyDictGet rest k (if k = k2 then v else dflt)

/-- Pandas `value_counts` over a list of labels: distinct labels (first-occurrence
order) paired with their multiplicities, sorted by count descending
(pandas `Series.value_counts`). -/
def valueCounts (xs : List String) : List (String × Nat) :=
  let pairs := xs.dedup.map (fun k => (k, xs.count k))
  pairs.mergeSort (fun a b => decide (b.2 ≤ a.2))

namespace GT

/-- A Google Tasks task-list record (`{id, title}` dict). -/
structure GList where
  id : String
  title : String
deriving DecidableEq, Repr

/-- A raw Google Tasks task record: a JSON dict whose keys may be absent.
`completed` is the completion timestamp (its presence is the completion
marker; a represented timestamp renders as a nonempty, hence truthy,
string). -/
structure GTask where
  id : Option String := none
  title : Option String := none
  due : Option Timestamp := none
  completed : Option Timestamp := none
  notes : Option String := none
  updated : Option String := none
deriving DecidableEq, Repr

/-- One row of the normalized DataFrame built by `process_tasks` in
`pages/task.py`. -/
structure GRow where
  task_id : String
  title : String
  list_name : String
  list_id : String
  status : String
  due_date : Option Date
  completed_date : Option Date
  notes : String
  created : String
deriving DecidableEq, Repr

/-- The `list_names.get(list_id, "Unknown")` lookup of `process_tasks`,
where `list_names = {lst["id"]: lst["title"] for lst in all_lists}`. -/
def listNameOf (all_lists : List GList) (list_id : String) : String :=
  pyDictGet (all_lists.map (fun l => (l.id, l.title))) list_id "Unknown"

/-- The per-task body of the `for task in tasks` loop of `process_tasks`
(`pages/task.py` lines 70-109): returns `none` when the task is skipped for
lacking a `title` key, otherwise the appended row. -/
def processTask (list_name list_id : String) (task : GTask) (today : Date) :
    Option GRow :=
  match task.title with
  | none => none
  | some _ =>
    let due_date : Option Date := task.due.map Timestamp.date
    let completed_date : Option Date := task.completed.map Timestamp.date
    let status : String :=
      if task.completed.isSome then "Completed"
      else
        match task.due with
        | some ts => if Date.before ts.date today then "Overdue" else "Active"
        | none => "Active"
    some
      { task_id := task.id.getD ""
        title := task.title.getD ""
        list_name := list_name
        list_id := list_id
        status := status
        due_date := due_date
        completed_date := completed_date
        notes := task.notes.getD ""
        created := task.updated.getD "" }

/-- Source `process_tasks(all_tasks, all_lists)` of `pages/task.py`: `all_tasks`
is the dict mapping each list id to its fetched tasks (iterated in insertion
order, modelled as an association list). -/
def process_tasks (all_tasks : List (String × List GTask))
    (all_lists : List GList) (today : Date) : List GRow :=
  all_tasks.flatMap (fun p =>
    let list_name := listNameOf all_lists p.1
    p.2.filterMap (fun task => processTask list_name p.1 task today))

/-- Source `get_task_lists(service)` (`pages/task.py` lines 45-48): the client call
either raises (propagated: there is no try/except here) or returns a response
dict whose `items` key may be absent, defaulted to `[]`. -/
def get_task_lists (r : Except String (Option (List GList))) :
    Except String (List GList) :=
  r.map (fun items => items.getD [])

/-- Source `get_tasks(service, task_list_id)` (`pages/task.py` lines 51-58): same
shape; no try/except, exceptions propagate. -/
def get_tasks (r : Except String (Option (List GTask))) :
    Except String (List GTask) :=
  r.map (fun items => items.getD [])

/-- The `for task_list in task_lists` loop of `main` building the `all_tasks`
dict; an exception from any `get_tasks` call aborts the loop and propagates. -/
def gatherTasks (task_lists : List GList)
    (fetch : String → Except String (Option (List GTask))) :
    Except String (List (String × List GTask)) :=
  match task_lists with
  | [] => .ok []
  | l :: rest =>
    match get_tasks (fetch l.id) with
    | .error e => .error e
    | .ok ts =>
      match gatherTasks rest fetch with
      | .error e => .error e
      | .ok acc => .ok ((l.id, ts) :: acc)

/-- Source `main()` of `pages/task.py` after authentication: fetch task lists, halt
with `st.error("No task lists found!")` when empty, fetch tasks per list,
normalize, and hand the table to `create_dashboard`.  The surrounding
`try/except Exception` converts any propagated exception into the single
message `"An error occurred: ..."`.  Returns the emitted messages and the
normalized table passed on to the dashboard (`none` when the render halted
before the dashboard). -/
def main (listsResult : Except String (Option (List GList)))
    (fetch : String → Except String (Option (List GTask))) (today : Date) :
    List Effect × Option (List GRow) :=
  match get_task_lists listsResult with
  | .error e => ([.errorMsg ("An error occurred: " ++ e)], none)
  | .ok task_lists =>
    if task_lists.isEmpty then ([.errorMsg "No task lists found!"], none)
    else
      match gatherTasks task_lists fetch with
      | .error e => ([.errorMsg ("An error occurred: " ++ e)], none)
      | .ok all_tasks => ([], some (process_tasks all_tasks task_lists today))

/-- The sidebar filter application of `create_dashboard` (`pages/task.py`
lines 131-136): each filter is skipped when its selectbox is on the
`"All"` sentinel. -/
def applyFilters (df : List GRow) (selected_list selected_status : String) :
    List GRow :=
  let f1 := if selected_list ≠ "All" then
    df.filter (fun r => r.list_name == selected_list) else df
  if selected_status ≠ "All" then
    f1.filter (fun r => r.status == selected_status) else f1

/-- Row comparison used by `sort_values("due_date")`: ascending by due date
(in the DataFrame the dates are `YYYY-MM-DD` strings, whose lexicographic
order coincides with calendar order). -/
def dueLe (a b : GRow) : Bool :=
  match a.due_date, b.due_date with
  | some x, some y => Date.le x y
  | none, _ => true
  | some _, none => false

/-- Source `upcoming_tasks` of `create_dashboard` (`pages/task.py` lines 203-205):
Active rows with a due date, from the unfiltered `df`, sorted ascending by
due date. -/
def upcomingTasks (df : List GRow) : List GRow :=
  (df.filter (fun r => r.status == "Active" && r.due_date.isSome)).mergeSort
    dueLe

/-- Source `completed_over_time` (`pages/task.py` lines 180-186): rows with a
completion date, grouped by that calendar date (groupby sorts keys
ascending), counted. -/
def completedOverTime (df : List GRow) : List (Date × Nat) :=
  let cds := df.filterMap GRow.completed_date
  (cds.dedup.mergeSort Date.le).map (fun d => (d, cds.count d))

/-- The independent views rendered by `create_dashboard` of `pages/task.py`:
aggregate charts are computed from the unfiltered `df`, the detail table from
`filtered_df`, and the upcoming display keeps the first 10 rows. -/
structure Views where
  statusCounts : List (String × Nat)
  listCounts : List (String × Nat)
  completedSeries : List (Date × Nat)
  upcoming : List GRow
  detailTable : List GRow
deriving DecidableEq, Repr

/-- Source `create_dashboard(df)` of `pages/task.py`, as a function of the table and
the two sidebar selections. -/
def create_dashboard (df : List GRow) (selected_list selected_status : String) :
    Views :=
  { statusCounts := valueCounts (df.map GRow.status)
    listCounts := valueCounts (df.map GRow.list_name)
    completedSeries := completedOverTime df
    upcoming := (upcomingTasks df).take 10
    detailTable := applyFilters df selected_list selected_status }

end GT

namespace TD

/-- A Todoist project object (`{id, name}`). -/
structure TProject where
  id : String
  name : String
deriving DecidableEq, Repr

/-- The `due` object of a Todoist task: its `.date` attribute is already a
date-only `YYYY-MM-DD` string (nonempty, hence truthy). -/
structure TDue where
  date : Date
deriving DecidableEq, Repr

/-- A raw Todoist task object from the SDK.  `completed_at`, `description`
and `created_at` are guarded with `hasattr` in the source; `none` models an
absent (or falsy, for `completed_at`) attribute. -/
structure TTask where
  id : String
  content : String
  project_id : String
  is_completed : Bool
  due : Option TDue := none
  completed_at : Option Timestamp := none
  description : Option String := none
  priority : Nat := 1
  created_at : Option String := none
deriving DecidableEq, Repr

/-- One row of the normalized DataFrame built by `process_tasks` in
`pages/todoist_viz.py`. -/
structure TRow where
  task_id : String
  title : String
  project_name : String
  project_id : String
  status : String
  due_date : Option Date
  completed_date : Option Date
  description : String
  priority : Nat
  created : String
deriving DecidableEq, Repr

/-- The per-task body of the `for task in all_tasks` loop of `process_tasks`
(`pages/todoist_viz.py` lines 73-110); no task is ever skipped. -/
def processTask (project_names : List (String × String)) (task : TTask)
    (today : Date) : TRow :=
  let due_date : Option Date := task.due.map TDue.date
  let completed_date : Option Date := task.completed_at.map Timestamp.date
  let status : String :=
    if task.is_completed then "Completed"
    else
      match due_date with
      | some d => if Date.before d today then "Overdue" else "Active"
      | none => "Active"
  { task_id := task.id
    title := task.content
    project_name := pyDictGet project_names task.project_id "Unknown"
    project_id := task.project_id
    status := status
    due_date := due_date
    completed_date := completed_date
    description := task.description.getD ""
    priority := task.priority
    created := task.created_at.getD "" }

/-- Source `process_tasks(all_tasks, all_projects)` of `pages/todoist_viz.py`
(the `@st.cache_data` memoization has no semantic effect on the result). -/
def process_tasks (all_tasks : List TTask) (all_projects : List TProject)
    (today : Date) : List TRow :=
  let project_names := all_projects.map (fun p => (p.id, p.name))
  all_tasks.map (fun task => processTask project_names task today)

/-- Source `get_projects(api)` (`pages/todoist_viz.py` lines 44-50): the client call
is wrapped in `try/except Exception`; on an exception the fetcher itself
shows `st.error("Error fetching projects: ...")` and returns `[]` instead of
propagating. -/
def get_projects (apiResult : Except String (List TProject)) :
    List Effect × List TProject :=
  match apiResult with
  | .ok ps => ([], ps)
  | .error e => ([.errorMsg ("Error fetching projects: " ++ e)], [])

/-- Source `get_tasks(api)` (`pages/todoist_viz.py` lines 53-62): same catching
behavior as `get_projects`. -/
def get_tasks (apiResult : Except String (List TTask)) :
    List Effect × List TTask :=
  match apiResult with
  | .ok ts => ([], ts)
  | .error e => ([.errorMsg ("Error fetching tasks: " ++ e)], [])

/-- Python truthiness of an optional string (`None` and `""` are falsy). -/
def pyTruthy (s : Option String) : Bool :=
  match s with
  | none => false
  | some t => t ≠ ""

/-- Source `authenticate_todoist_api()` (`pages/todoist_viz.py` lines 22-41), as a
function of the three token sources: `session_token` is
`st.session_state["todoist_api_token"]` when that key is present (checked by
membership, so even an empty stored string wins), `env_token` is
`os.getenv("TODOIST_API_TOKEN")` (used when truthy), `user_input` is the
`st.text_input` value (used when truthy).  Returns the token handed to
`TodoistAPI`, or `none` when authentication did not complete (the page shows
a warning and `main` stops at `if api:`). -/
def authenticate_todoist_api (session_token env_token : Option String)
    (user_input : String) : Option String :=
  if session_token.isSome then session_token
  else if pyTruthy env_token then env_token
  else if user_input ≠ "" then some user_input
  else none

/-- Modelled from the spec (section 6): the token-resolution precedence as
the spec states it — environment variable first, then the runtime secret
store, then interactive input; the first source yielding a token wins. -/
def specAuthPrecedence (env_token session_token : Option String)
    (user_input : String) : Option String :=
  if pyTruthy env_token then env_token
  else if session_token.isSome then session_token
  else if user_input ≠ "" then some user_input
  else none

/-- Source `main()` of `pages/todoist_viz.py` inside the `if api:` branch: fetch
projects (warning + halt when empty), fetch tasks (warning + halt when
empty), normalize, render.  The outer `try/except` never fires on fetch
failures because the fetchers already caught them.  Returns the emitted
messages and the table handed to `create_dashboard` (`none` when the render
halted first). -/
def main (projectsResult : Except String (List TProject))
    (tasksResult : Except String (List TTask)) (today : Date) :
    List Effect × Option (List TRow) :=
  let fp := get_projects projectsResult
  if fp.2.isEmpty then
    (fp.1 ++ [.warningMsg "No projects found in your Todoist account."], none)
  else
    let ft := get_tasks tasksResult
    if ft.2.isEmpty then
      (fp.1 ++ ft.1 ++
        [.warningMsg "No tasks found in your Todoist account."], none)
    else
      (fp.1 ++ ft.1, some (process_tasks ft.2 fp.2 today))

/-- The priority selectbox options (`pages/todoist_viz.py` line 131). -/
def priorityOptions : List String :=
  ["All", "1 (Highest)", "2 (High)", "3 (Medium)", "4 (Low)"]

/-- Python `list.index` (first occurrence; for an element that is absent the
source would raise `ValueError`, which cannot happen for a selectbox value —
here the total function returns the list length in that unreachable case). -/
def listIndex (xs : List String) (x : String) : Nat :=
  match xs with
  | [] => 0
  | y :: rest => if y = x then 0 else listIndex rest x + 1

/-- The sidebar filter application of `create_dashboard`
(`pages/todoist_viz.py` lines 134-144): project, status and priority
filters, each disabled on the `"All"` sentinel; the priority selection is
converted with `priority_value = 5 - priorities.index(selected_priority)`. -/
def applyFilters (df : List TRow)
    (selected_project selected_status selected_priority : String) :
    List TRow :=
  let f1 := if selected_project ≠ "All" then
    df.filter (fun r => r.project_name == selected_project) else df
  let f2 := if selected_status ≠ "All" then
    f1.filter (fun r => r.status == selected_status) else f1
  if selected_priority ≠ "All" then
    f2.filter (fun r =>
      r.priority == 5 - listIndex priorityOptions selected_priority)
  else f2

/-- Mapping `priority_map = {4: "1 (Highest)", 3: "2 (High)", 2: "3 (Medium)",
1: "4 (Low)"}`; `pandas.Series.map` yields a missing value (dropped by
`value_counts`) outside the map. -/
def priorityLabel (p : Nat) : Option String :=
  if p = 4 then some "1 (Highest)"
  else if p = 3 then some "2 (High)"
  else if p = 2 then some "3 (Medium)"
  else if p = 1 then some "4 (Low)"
  else none

/-- The priority distribution (`pages/todoist_viz.py` lines 180-192): counts
of the mapped priority labels, reordered by the categorical priority order
(only observed labels appear in `value_counts`). -/
def priorityCounts (df : List TRow) : List (String × Nat) :=
  let labels := df.filterMap (fun r => priorityLabel r.priority)
  (["1 (Highest)", "2 (High)", "3 (Medium)", "4 (Low)"].filter
    (fun s => labels.contains s)).map (fun s => (s, labels.count s))

/-- Row comparison for `sort_values("due_date")`, ascending by due date. -/
def dueLe (a b : TRow) : Bool :=
  match a.due_date, b.due_date with
  | some x, some y => Date.le x y
  | none, _ => true
  | some _, none => false

/-- Source `upcoming_tasks` (`pages/todoist_viz.py` lines 236-238): Active rows
with a due date, from the unfiltered `df`, sorted ascending by due date. -/
def upcomingTasks (df : List TRow) : List TRow :=
  (df.filter (fun r => r.status == "Active" && r.due_date.isSome)).mergeSort
    dueLe

/-- Source `completed_over_time` (`pages/todoist_viz.py` lines 213-220). -/
def completedOverTime (df : List TRow) : List (Date × Nat) :=
  let cds := df.filterMap TRow.completed_date
  (cds.dedup.mergeSort Date.le).map (fun d => (d, cds.count d))

/-- The independent views rendered by `create_dashboard` of
`pages/todoist_viz.py`: aggregates from the unfiltered `df`, the detail
table from `filtered_df`, the upcoming display truncated to 10 rows. -/
structure Views where
  statusCounts : List (String × Nat)
  projectCounts : List (String × Nat)
  prioCounts : List (String × Nat)
  completedSeries : List (Date × Nat)
  upcoming : List TRow
  detailTable : List TRow
deriving DecidableEq, Repr

/-- Source `create_dashboard(df)` of `pages/todoist_viz.py`, as a function of the
table and the three sidebar selections. -/
def create_dashboard (df : List TRow)
    (selected_project selected_status selected_priority : String) : Views :=
  { statusCounts := valueCounts (df.map TRow.status)
    projectCounts := valueCounts (df.map TRow.project_name)
    prioCounts := priorityCounts df
    completedSeries := completedOverTime df
    upcoming := (upcomingTasks df).take 10
    detailTable := applyFilters df selected_project selected_status
      selected_priority }

end TD

/-- Modelled from the spec (section 4.2), as a refinement reference: the
status precedence rule as the spec states it, as a function of the
completion marker, the due calendar date, and the current date. -/
def specStatus (completedMarker : Bool) (dueDate : Option Date)
    (today : Date) : String :=
  if completedMarker then "Completed"
  else
    match dueDate with
    | some d => if Date.before d today then "Overdue" else "Active"
    | none => "Active"

theorem Date.before_iff (a b : Date) : Date.before a b = true ↔
    (a.year < b.year ∨ (a.year = b.year ∧ (a.month < b.month ∨
      (a.month = b.month ∧ a.day < b.day)))) := by
  simp only [Date.before]
  split_ifs <;> simp <;> omega

theorem Date.le_trans (a b c : Date) :
    Date.le a b = true → Date.le b c = true → Date.le a c = true := by
  simp only [Date.le, Bool.not_eq_true', ← Bool.not_eq_true, Date.before_iff]
  omega

theorem Date.le_total (a b : Date) : (Date.le a b || Date.le b a) = true := by
  simp only [Date.le, Bool.or_eq_true, Bool.not_eq_true', ← Bool.not_eq_true,
    Date.before_iff]
  omega

theorem pyDictGet_not_mem (ps : List (String × String)) (k dflt : String)
    (h : k ∉ ps.map Prod.fst) : pyDictGet ps k dflt = dflt := by
  induction ps generalizing dflt with
  | nil => rfl
  | cons p rest ih =>
    simp only [List.map_cons, List.mem_cons] at h
    push_neg at h
    simp only [pyDictGet, if_neg h.1]
    exact ih dflt h.2

theorem pyDictGet_mem (ps : List (String × String)) (p : String × String)
    (dflt : String) (hmem : p ∈ ps) (hnd : (ps.map Prod.fst).Nodup) :
    pyDictGet ps p.1 dflt = p.2 := by
  induction ps generalizing dflt with
  | nil => cases hmem
  | cons q rest ih =>
    simp only [List.map_cons, List.nodup_cons] at hnd
    rcases List.mem_cons.mp hmem with h | h
    · subst h
      simp only [pyDictGet, if_pos rfl]
      exact pyDictGet_not_mem rest p.1 p.2 hnd.1
    · have hne : p.1 ≠ q.1 := by
        intro hEq
        exact hnd.1 (hEq ▸ List.mem_map_of_mem Prod.fst h)
      simp only [pyDictGet, if_neg hne]
      exact ih dflt h hnd.2

/-- C1: for every raw task (both providers), the derived status follows the
spec's precedence: a truthy completion marker gives `Completed` regardless
of due date; otherwise a due date whose calendar part is strictly before
today gives `Overdue`; otherwise `Active` — in particular a task with
neither marker nor due date is `Active`. -/
theorem status_precedence (ln lid : String) (gtask : GT.GTask)
    (pn : List (String × String)) (ttask : TD.TTask) (today : Date)
    (row : GT.GRow) (h : GT.processTask ln lid gtask today = some row) :
    row.status = specStatus gtask.completed.isSome
      (gtask.due.map Timestamp.date) today ∧
    (TD.processTask pn ttask today).status =
      specStatus ttask.is_completed (ttask.due.map TD.TDue.date) today ∧
    specStatus false none today = "Active" := by
  refine ⟨?_, ?_, rfl⟩
  · cases htitle : gtask.title with
    | none => simp [GT.processTask, htitle] at h
    | some t =>
      simp only [GT.processTask, htitle, Option.some.injEq] at h
      subst h
      cases hc : gtask.completed <;> cases hd : gtask.due <;>
        simp [specStatus, hc, hd]
  · cases hc : ttask.is_completed <;> cases hd : ttask.due <;>
      simp [TD.processTask, specStatus, hc, hd]

/-- Witness for C1 at concrete inputs. -/
theorem status_precedence_witness :
    ({ task_id := "", title := "t", list_name := "L", list_id := "l1",
       status := "Active", due_date := none, completed_date := none,
       notes := "", created := "" } : GT.GRow).status =
      specStatus false none ⟨2024, 6, 1⟩ ∧
    (TD.processTask [] { id := "1", content := "c", project_id := "p",
                         is_completed := true } ⟨2024, 6, 1⟩).status =
      specStatus true none ⟨2024, 6, 1⟩ ∧
    specStatus false none ⟨2024, 6, 1⟩ = "Active" :=
  status_precedence "L" "l1" { title := some "t" } []
    { id := "1", content := "c", project_id := "p", is_completed := true }
    ⟨2024, 6, 1⟩ _ rfl

/-- C2 counterexample: the Todoist fetcher does NOT propagate a client
exception — `get_projects` catches it, emits its own error message, and
returns an empty list, so the fetcher itself swallows the exception instead
of letting the top-level page handler see it. -/
theorem todoist_fetcher_swallows :
    TD.get_projects (Except.error "Network error") =
      ([Effect.errorMsg "Error fetching projects: Network error"], []) ∧
    TD.get_tasks (Except.error "Network error") =
      ([Effect.errorMsg "Error fetching tasks: Network error"], []) := ⟨rfl, rfl⟩

/-- C2 amended: on the Google Tasks page, fetcher exceptions propagate
unrecovered and are caught exactly once by the top-level handler of `main`,
which shows the single message `"An error occurred: ..."` and halts; on the
Todoist page, the fetchers themselves catch the exception, show a
fetch-specific error message and return an empty list, after which `main`
reports the empty result as a warning and halts — the top-level Todoist
handler never sees a fetch exception. -/
theorem exception_handling_amended (e : String)
    (fetch : String → Except String (Option (List GT.GTask)))
    (tasksResult : Except String (List TD.TTask)) (today : Date) :
    GT.get_task_lists (Except.error e) = Except.error e ∧
    GT.get_tasks (Except.error e) = Except.error e ∧
    GT.main (Except.error e) fetch today =
      ([Effect.errorMsg ("An error occurred: " ++ e)], none) ∧
    TD.get_projects (Except.error e) =
      ([Effect.errorMsg ("Error fetching projects: " ++ e)], []) ∧
    TD.main (Except.error e) tasksResult today =
      ([Effect.errorMsg ("Error fetching projects: " ++ e),
        Effect.warningMsg "No projects found in your Todoist account."],
       none) := ⟨rfl, rfl, rfl, rfl, rfl⟩

/-- C3 counterexample: on the Google Tasks page an empty task-list
collection is surfaced with `st.error("No task lists found!")` — an error
message, with zero warnings emitted — and when the task lists are nonempty
but contain no tasks, the Google page emits no empty-result message at all
and proceeds to the dashboard stage with an empty table. -/
theorem google_empty_result_not_warning :
    GT.main (Except.ok (some [])) (fun _ => Except.ok (some [])) ⟨2024, 1, 1⟩ =
      ([Effect.errorMsg "No task lists found!"], none) ∧
    (GT.main (Except.ok (some [])) (fun _ => Except.ok (some []))
        ⟨2024, 1, 1⟩).1.countP
      (fun eff => match eff with
        | Effect.warningMsg _ => true
        | Effect.errorMsg _ => false) = 0 ∧
    GT.main (Except.ok (some [{ id := "l1", title := "List 1" }]))
        (fun _ => Except.ok (some [])) ⟨2024, 1, 1⟩ = ([], some []) :=
  ⟨rfl, rfl, rfl⟩

/-- C3 amended: on the Todoist page, an empty project collection or an empty
task collection is surfaced as a user-visible warning and the render halts;
on the Google Tasks page, an empty task-list collection is surfaced as an
error message (not a warning) and the render halts, and there is no explicit
empty-tasks check — with lists present but no tasks the page proceeds to the
dashboard stage with an empty table. -/
theorem empty_result_handling_amended
    (tasksResult : Except String (List TD.TTask))
    (projects : List TD.TProject) (hp : projects ≠ [])
    (fetch : String → Except String (Option (List GT.GTask))) (today : Date) :
    TD.main (Except.ok []) tasksResult today =
      ([Effect.warningMsg "No projects found in your Todoist account."],
       none) ∧
    TD.main (Except.ok projects) (Except.ok []) today =
      ([Effect.warningMsg "No tasks found in your Todoist account."], none) ∧
    GT.main (Except.ok (some [])) fetch today =
      ([Effect.errorMsg "No task lists found!"], none) := by
  refine ⟨rfl, ?_, rfl⟩
  simp [TD.main, TD.get_projects, TD.get_tasks, List.isEmpty_iff, hp]

/-- Witness for C3 amended at concrete inputs. -/
theorem empty_result_handling_amended_witness :
    TD.main (Except.ok []) (Except.ok []) ⟨2024, 1, 1⟩ =
      ([Effect.warningMsg "No projects found in your Todoist account."],
       none) ∧
    TD.main (Except.ok [{ id := "p1", name := "Inbox" }]) (Except.ok [])
        ⟨2024, 1, 1⟩ =
      ([Effect.warningMsg "No tasks found in your Todoist account."], none) :=
  ⟨(empty_result_handling_amended (Except.ok []) [{ id := "p1", name := "Inbox" }]
      (by simp) (fun _ => Except.ok none) ⟨2024, 1, 1⟩).1,
   (empty_result_handling_amended (Except.ok []) [{ id := "p1", name := "Inbox" }]
      (by simp) (fun _ => Except.ok none) ⟨2024, 1, 1⟩).2.1⟩

theorem GT.length_processTask_filterMap (ln lid : String)
    (tasks : List GT.GTask) (today : Date) :
    (tasks.filterMap (fun task => GT.processTask ln lid task today)).length =
      tasks.countP (fun t => t.title.isSome) := by
  induction tasks with
  | nil => rfl
  | cons t rest ih =>
    cases h : t.title with
    | none =>
      have hnone : GT.processTask ln lid t today = none := by
        simp [GT.processTask, h]
      simp [List.filterMap_cons, hnone, List.countP_cons, h, ih]
    | some s =>
      have hsome : ∃ row, GT.processTask ln lid t today = some row := by
        simp [GT.processTask, h]
      obtain ⟨row, hrow⟩ := hsome
      simp [List.filterMap_cons, hrow, List.countP_cons, h, ih]

theorem GT.length_process_tasks (all_tasks : List (String × List GT.GTask))
    (all_lists : List GT.GList) (today : Date) :
    (GT.process_tasks all_tasks all_lists today).length =
      (all_tasks.map (fun p => p.2.countP (fun t => t.title.isSome))).sum := by
  induction all_tasks with
  | nil => rfl
  | cons p rest ih =>
    simp only [GT.process_tasks, List.flatMap_cons, List.length_append,
      List.map_cons, List.sum_cons] at ih ⊢
    rw [GT.length_processTask_filterMap, ih]

/-- C4: the Google Tasks normalizer silently drops every raw task that lacks
a `title` key (its row count is the number of titled tasks, and a titleless
task yields no row), while the Todoist normalizer yields exactly one row per
input task regardless of title. -/
theorem title_drop_asymmetry (ln lid : String) (gtask : GT.GTask)
    (all_tasks : List (String × List GT.GTask)) (all_lists : List GT.GList)
    (tds : List TD.TTask) (tps : List TD.TProject) (today : Date) :
    (gtask.title = none → GT.processTask ln lid gtask today = none) ∧
    (GT.process_tasks all_tasks all_lists today).length =
      (all_tasks.map
        (fun p => p.2.countP (fun t => t.title.isSome))).sum ∧
    (TD.process_tasks tds tps today).length = tds.length := by
  refine ⟨?_, GT.length_process_tasks all_tasks all_lists today, ?_⟩
  · intro h
    simp [GT.processTask, h]
  · simp [TD.process_tasks]

/-- Witness for C4 at concrete inputs. -/
theorem title_drop_asymmetry_witness :
    GT.processTask "L" "l1" { due := none } ⟨2024, 1, 1⟩ = none ∧
    (TD.process_tasks [] [] ⟨2024, 1, 1⟩).length = ([] : List TD.TTask).length :=
  ⟨(title_drop_asymmetry "L" "l1" { due := none } [] [] [] [] ⟨2024, 1, 1⟩).1
      rfl,
   (title_drop_asymmetry "L" "l1" { due := none } [] [] [] [] ⟨2024, 1, 1⟩).2.2⟩

/-- C5: for any selections, the detail (row-level) table is exactly the
normalized table filtered by the logical AND of the selected predicates,
with the `"All"` sentinel disabling a predicate; selecting `"All"`
everywhere yields the full table (both providers). -/
theorem filter_composition (gdf : List GT.GRow) (G S : String)
    (tdf : List TD.TRow) (GP SP P : String) :
    GT.applyFilters gdf G S =
      gdf.filter (fun r => (decide (G = "All") || r.list_name == G) &&
        (decide (S = "All") || r.status == S)) ∧
    GT.applyFilters gdf "All" "All" = gdf ∧
    TD.applyFilters tdf GP SP P =
      tdf.filter (fun r => (decide (GP = "All") || r.project_name == GP) &&
        ((decide (SP = "All") || r.status == SP) &&
          (decide (P = "All") ||
            r.priority == 5 - TD.listIndex TD.priorityOptions P))) ∧
    TD.applyFilters tdf "All" "All" "All" = tdf := by
  refine ⟨?_, ?_, ?_, ?_⟩
  · by_cases hG : G = "All" <;> by_cases hS : S = "All" <;>
      simp [GT.applyFilters, hG, hS, List.filter_filter]
    exact List.filter_congr (fun a ha => by
      cases hx : a.list_name == G <;> cases hy : a.status == S <;> simp [hx, hy])
  · simp [GT.applyFilters]
  · by_cases hG : GP = "All" <;> by_cases hS : SP = "All" <;>
      by_cases hP : P = "All" <;>
      simp [TD.applyFilters, hG, hS, hP, List.filter_filter] <;>
      exact List.filter_congr (fun a ha => by
        cases hx : a.project_name == GP <;> cases hy : a.status == SP <;>
          cases hz : a.priority == 5 - TD.listIndex TD.priorityOptions P <;>
          simp [hx, hy, hz])
  · simp [TD.applyFilters]

/-- C6: for every pair of filter selections, the aggregate views (status
distribution, grouping distribution, priority distribution, time series,
and also the upcoming list) are computed from the unfiltered normalized
table and hence identical across the two runs; only the row-level detail
table depends on the selections (both providers). -/
theorem aggregates_ignore_filters (gdf : List GT.GRow) (G S G2 S2 : String)
    (tdf : List TD.TRow) (GP SP P GP2 SP2 P2 : String) :
    (GT.create_dashboard gdf G S).statusCounts =
      (GT.create_dashboard gdf G2 S2).statusCounts ∧
    (GT.create_dashboard gdf G S).listCounts =
      (GT.create_dashboard gdf G2 S2).listCounts ∧
    (GT.create_dashboard gdf G S).completedSeries =
      (GT.create_dashboard gdf G2 S2).completedSeries ∧
    (GT.create_dashboard gdf G S).upcoming =
      (GT.create_dashboard gdf G2 S2).upcoming ∧
    (GT.create_dashboard gdf G S).detailTable = GT.applyFilters gdf G S ∧
    (TD.create_dashboard tdf GP SP P).statusCounts =
      (TD.create_dashboard tdf GP2 SP2 P2).statusCounts ∧
    (TD.create_dashboard tdf GP SP P).projectCounts =
      (TD.create_dashboard tdf GP2 SP2 P2).projectCounts ∧
    (TD.create_dashboard tdf GP SP P).prioCounts =
      (TD.create_dashboard tdf GP2 SP2 P2).prioCounts ∧
    (TD.create_dashboard tdf GP SP P).completedSeries =
      (TD.create_dashboard tdf GP2 SP2 P2).completedSeries ∧
    (TD.create_dashboard tdf GP SP P).upcoming =
      (TD.create_dashboard tdf GP2 SP2 P2).upcoming ∧
    (TD.create_dashboard tdf GP SP P).detailTable =
      TD.applyFilters tdf GP SP P :=
  ⟨rfl, rfl, rfl, rfl, rfl, rfl, rfl, rfl, rfl, rfl, rfl⟩

theorem gRow_dueLe_trans (a b c : GT.GRow) :
    GT.dueLe a b = true → GT.dueLe b c = true → GT.dueLe a c = true := by
  simp only [GT.dueLe]
  cases a.due_date <;> cases b.due_date <;> cases c.due_date <;>
    simp
  exact Date.le_trans _ _ _

theorem gRow_dueLe_total (a b : GT.GRow) :
    (GT.dueLe a b || GT.dueLe b a) = true := by
  simp only [GT.dueLe]
  cases a.due_date <;> cases b.due_date <;> simp
  simpa using Date.le_total _ _

theorem tRow_dueLe_trans (a b c : TD.TRow) :
    TD.dueLe a b = true → TD.dueLe b c = true → TD.dueLe a c = true := by
  simp only [TD.dueLe]
  cases a.due_date <;> cases b.due_date <;> cases c.due_date <;>
    simp
  exact Date.le_trans _ _ _

theorem tRow_dueLe_total (a b : TD.TRow) :
    (TD.dueLe a b || TD.dueLe b a) = true := by
  simp only [TD.dueLe]
  cases a.due_date <;> cases b.due_date <;> simp
  simpa using Date.le_total _ _

/-- C7: on both providers the upcoming-tasks view contains only rows with
status `Active` and a present due date, is sorted ascending by due date
(computed from the unfiltered table), and holds at most 10 rows. -/
theorem upcoming_view_invariants (gdf : List GT.GRow) (G S : String)
    (tdf : List TD.TRow) (GP SP P : String) :
    (∀ r ∈ (GT.create_dashboard gdf G S).upcoming,
      r.status = "Active" ∧ r.due_date.isSome = true) ∧
    (GT.create_dashboard gdf G S).upcoming.Pairwise
      (fun a b => GT.dueLe a b = true) ∧
    (GT.create_dashboard gdf G S).upcoming.length ≤ 10 ∧
    (∀ r ∈ (TD.create_dashboard tdf GP SP P).upcoming,
      r.status = "Active" ∧ r.due_date.isSome = true) ∧
    (TD.create_dashboard tdf GP SP P).upcoming.Pairwise
      (fun a b => TD.dueLe a b = true) ∧
    (TD.create_dashboard tdf GP SP P).upcoming.length ≤ 10 := by
  have hg : (GT.create_dashboard gdf G S).upcoming =
      (GT.upcomingTasks gdf).take 10 := rfl
  have ht : (TD.create_dashboard tdf GP SP P).upcoming =
      (TD.upcomingTasks tdf).take 10 := rfl
  rw [hg, ht]
  refine ⟨?_, ?_, ?_, ?_, ?_, ?_⟩
  · intro r hr
    have hr2 := List.mem_mergeSort.mp (List.mem_of_mem_take hr)
    have hpred := (List.mem_filter.mp hr2).2
    simp only [Bool.and_eq_true, beq_iff_eq] at hpred
    exact hpred
  · exact List.Pairwise.sublist (List.take_sublist _ _)
      (List.sorted_mergeSort gRow_dueLe_trans gRow_dueLe_total _)
  · exact List.length_take_le _ _
  · intro r hr
    have hr2 := List.mem_mergeSort.mp (List.mem_of_mem_take hr)
    have hpred := (List.mem_filter.mp hr2).2
    simp only [Bool.and_eq_true, beq_iff_eq] at hpred
    exact hpred
  · exact List.Pairwise.sublist (List.take_sublist _ _)
      (List.sorted_mergeSort tRow_dueLe_trans tRow_dueLe_total _)
  · exact List.length_take_le _ _

/-- Witness for C7 at a concrete input. -/
theorem upcoming_view_invariants_witness :
    ({ task_id := "1", title := "t", list_name := "L", list_id := "l1",
       status := "Active", due_date := some ⟨2024, 6, 1⟩,
       completed_date := none, notes := "", created := "" } : GT.GRow).status
        = "Active" ∧
    (TD.create_dashboard [] "All" "All" "All").upcoming.length ≤ 10 := by
  have hup : (GT.create_dashboard
      [{ task_id := "1", title := "t", list_name := "L", list_id := "l1",
         status := "Active", due_date := some ⟨2024, 6, 1⟩,
         completed_date := none, notes := "", created := "" }]
      "All" "All").upcoming =
      [{ task_id := "1", title := "t", list_name := "L", list_id := "l1",
         status := "Active", due_date := some ⟨2024, 6, 1⟩,
         completed_date := none, notes := "", created := "" }] := by
    simp [GT.create_dashboard, GT.upcomingTasks, List.mergeSort]
  refine ⟨((upcoming_view_invariants
      [{ task_id := "1", title := "t", list_name := "L", list_id := "l1",
         status := "Active", due_date := some ⟨2024, 6, 1⟩,
         completed_date := none, notes := "", created := "" }]
      "All" "All" [] "All" "All" "All").1 _ ?_).1,
    (upcoming_view_invariants
      [{ task_id := "1", title := "t", list_name := "L", list_id := "l1",
         status := "Active", due_date := some ⟨2024, 6, 1⟩,
         completed_date := none, notes := "", created := "" }]
      "All" "All" [] "All" "All" "All").2.2.2.2.2⟩
  rw [hup]
  exact List.mem_singleton.mpr rfl

theorem GT.processTask_fields (ln lid : String) (task : GT.GTask)
    (today : Date) (row : GT.GRow)
    (h : GT.processTask ln lid task today = some row) :
    row.list_name = ln ∧ row.list_id = lid := by
  cases ht : task.title with
  | none => simp [GT.processTask, ht] at h
  | some t =>
    simp only [GT.processTask, ht, Option.some.injEq] at h
    subst h
    exact ⟨rfl, rfl⟩

/-- C8: the grouping-name lookup resolves a container id that is absent from
the container collection to exactly `"Unknown"`, and (for distinct container
ids) a present id to that container's name; every normalized row's grouping
name is the lookup applied to its own container id (both providers). -/
theorem grouping_name_resolution (all_lists : List GT.GList) (lid : String)
    (all_tasks : List (String × List GT.GTask)) (today : Date)
    (tps : List TD.TProject) (pid : String) (tds : List TD.TTask) :
    (lid ∉ all_lists.map GT.GList.id →
      GT.listNameOf all_lists lid = "Unknown") ∧
    (∀ l ∈ all_lists, (all_lists.map GT.GList.id).Nodup →
      GT.listNameOf all_lists l.id = l.title) ∧
    (∀ row ∈ GT.process_tasks all_tasks all_lists today,
      row.list_name = GT.listNameOf all_lists row.list_id) ∧
    (pid ∉ tps.map TD.TProject.id →
      pyDictGet (tps.map (fun p => (p.id, p.name))) pid "Unknown" =
        "Unknown") ∧
    (∀ p ∈ tps, (tps.map TD.TProject.id).Nodup →
      pyDictGet (tps.map (fun q => (q.id, q.name))) p.id "Unknown" = p.name) ∧
    (∀ row ∈ TD.process_tasks tds tps today,
      row.project_name =
        pyDictGet (tps.map (fun p => (p.id, p.name))) row.project_id
          "Unknown") := by
  refine ⟨?_, ?_, ?_, ?_, ?_, ?_⟩
  · intro h
    apply pyDictGet_not_mem
    rw [List.map_map]
    exact h
  · intro l hl hnd
    apply pyDictGet_mem _ (l.id, l.title)
    · exact List.mem_map_of_mem _ hl
    · rw [List.map_map]
      exact hnd
  · intro row hrow
    obtain ⟨p, hp, hrow2⟩ := List.mem_flatMap.mp hrow
    obtain ⟨task, htask, hpt⟩ := List.mem_filterMap.mp hrow2
    obtain ⟨hn, hi⟩ := GT.processTask_fields _ _ _ _ _ hpt
    rw [hn, hi]
  · intro h
    apply pyDictGet_not_mem
    rw [List.map_map]
    exact h
  · intro p hp hnd
    apply pyDictGet_mem _ (p.id, p.name)
    · exact List.mem_map_of_mem _ hp
    · rw [List.map_map]
      exact hnd
  · intro row hrow
    obtain ⟨task, htask, heq⟩ := List.mem_map.mp hrow
    subst heq
    rfl

/-- Witness for C8 at concrete inputs. -/
theorem grouping_name_resolution_witness :
    GT.listNameOf [{ id := "a", title := "Alpha" }] "zzz" = "Unknown" ∧
    GT.listNameOf [{ id := "a", title := "Alpha" }] "a" = "Alpha" :=
  ⟨(grouping_name_resolution [{ id := "a", title := "Alpha" }] "zzz" []
      ⟨2024, 1, 1⟩ [] "" []).1 (by simp),
   (grouping_name_resolution [{ id := "a", title := "Alpha" }] "zzz" []
      ⟨2024, 1, 1⟩ [] "" []).2.1 { id := "a", title := "Alpha" }
      (List.mem_singleton.mpr rfl) (by simp)⟩

/-- C10: in the Google Tasks normalizer, every produced row's `created`
field is populated from the raw task's `updated` timestamp (empty string
when absent) — the raw task carries no creation timestamp at all. -/
theorem created_field_from_updated (ln lid : String) (task : GT.GTask)
    (today : Date) :
    (GT.processTask ln lid task today).map GT.GRow.created =
      if task.title.isSome then some (task.updated.getD "") else none := by
  cases ht : task.title <;> simp [GT.processTask, ht]

/-- C9 counterexample: with a token present in the session store AND a
truthy environment token, the code resolves to the session-store token,
while the claimed precedence (environment variable first) would resolve to
the environment token — and the two differ. -/
theorem session_beats_env_counterexample :
    TD.authenticate_todoist_api (some "session-token") (some "env-token") ""
      = some "session-token" ∧
    TD.specAuthPrecedence (some "env-token") (some "session-token") "" =
      some "env-token" ∧
    (("session-token" : String) == "env-token") = false :=
  ⟨rfl, rfl, by decide⟩

/-- C9 amended: the Todoist bearer token is resolved by trying, in this
precedence order: the runtime session store (winning on mere key presence),
then the environment variable (when truthy), then interactive user input
(when nonempty); the first source that yields a token wins, and `none` is
returned when no source yields one. -/
theorem auth_precedence_amended (s : String) (e : Option String)
    (u : String) :
    TD.authenticate_todoist_api (some s) e u = some s ∧
    (TD.pyTruthy e = true → TD.authenticate_todoist_api none e u = e) ∧
    (TD.pyTruthy e = false → u ≠ "" →
      TD.authenticate_todoist_api none e u = some u) ∧
    (TD.pyTruthy e = false → TD.authenticate_todoist_api none e "" = none) := by
  refine ⟨rfl, ?_, ?_, ?_⟩
  · intro h
    simp [TD.authenticate_todoist_api, h]
  · intro h hu
    simp [TD.authenticate_todoist_api, h, hu]
  · intro h
    simp [TD.authenticate_todoist_api, h]

/-- Witness for C9 amended at concrete inputs. -/
theorem auth_precedence_amended_witness :
    TD.authenticate_todoist_api (some "sess") (some "env") "" = some "sess" ∧
    TD.authenticate_todoist_api none (some "env") "" = some "env" ∧
    TD.authenticate_todoist_api none none "typed" = some "typed" ∧
    TD.authenticate_todoist_api none none "" = none :=
  ⟨(auth_precedence_amended "sess" (some "env") "").1,
   (auth_precedence_amended "sess" (some "env") "").2.1 (by decide),
   (auth_precedence_amended "sess" none "typed").2.2.1 rfl (by decide),
   (auth_precedence_amended "sess" none "").2.2.2 rfl⟩
